import Mathlib

set_option maxRecDepth 8000

/-!
Shallow embedding of the 7junky/tftp server (src/packet.rs and src/main.rs).

Bytes are modelled as `Nat` (values below 256 on the wire), byte buffers as
`List Nat`.  Rust code that can terminate the process (index out of bounds,
unwrap of a utf8 conversion, an explicit termination in `From<&str> for Mode`
or the unimplemented `Mode::encode`) is modelled with an explicit `panicked`
outcome, so every modelled operation is a total Lean function.
-/

/-! ## Packet codec — src/packet.rs -/

/-- The three transfer modes (src/packet.rs, `enum Mode`). -/
inductive Mode
  | NetAscii
  | Octet
  | Mail
deriving DecidableEq

/-- Model of `Mode::encode`, which is `todo!()` in the source: calling it terminates the
process, so its model returns no byte string (`none` = panicked). -/
def Mode.encode (_ : Mode) : Option (List Nat) := none

/-- The codec's error type (src/packet.rs, `enum Error`).  Named
`PacketError` here because the packet type below has an `Error` constructor. -/
inductive PacketError
  | InvalidOpcode
  | NoZeroByte
deriving DecidableEq

-- Opcodes (src/packet.rs)
def READ_OPCODE : Nat := 1
def WRITE_OPCODE : Nat := 2
def DATA_OPCODE : Nat := 3
def ACK_OPCODE : Nat := 4
def ERROR_OPCODE : Nat := 5

-- Error codes (src/packet.rs)
def SEE_MSG : Nat := 0
def FILE_NOT_FOUND : Nat := 1
def ILLEGAL_OP : Nat := 4
def UNKNOWN_TID : Nat := 5

/-- The five TFTP frame shapes (src/packet.rs, `enum Packet`).  In the source
`Data.data` is a fixed `[u8; 512]` buffer; here it is a byte list that is kept
at length 512 by every constructor site the program uses.  The `file` and
`msg` fields are `String` in the source; they are modelled as their UTF-8
byte lists. -/
inductive Packet
  | Request (op_code : Nat) (file : List Nat) (mode : Mode)
  | Data (block : Nat) (data : List Nat) (len : Nat)
  | Ack (block : Nat)
  | Error (code : Nat) (msg : List Nat)
deriving DecidableEq

/-- Model of `u16::to_be_bytes`: big-endian byte pair of a 16-bit value. -/
def be16 (n : Nat) : List Nat := [n / 256 % 256, n % 256]

/-- Model of `u16::to_le_bytes`: little-endian byte pair of a 16-bit value. -/
def le16 (n : Nat) : List Nat := [n % 256, n / 256 % 256]

/-- Model of `Packet::serialize` (src/packet.rs lines 129-197).  Returns `none` where
the source panics (the Request arm calls the unimplemented `Mode::encode`).
Note the Data arm: the source does `res.extend_from_slice(data)`, emitting the
whole fixed 512-byte buffer and ignoring `len`. -/
def Packet.serialize : Packet → Option (List Nat)
  | .Request op_code file mode =>
      match Mode.encode mode with
      | some m => some (be16 op_code ++ file ++ [0] ++ m ++ [0])
      | none => none
  | .Data block data _len => some (be16 DATA_OPCODE ++ be16 block ++ data)
  | .Ack block => some (be16 ACK_OPCODE ++ be16 block)
  | .Error code msg => some (be16 ERROR_OPCODE ++ le16 code ++ msg ++ [0])

/-- Scan of `for i in start..e { if buf[i] == 0 { .. } }`, returning the first
index in `[i, i + fuel)` whose byte is zero.  Fuel-structured so that the
kernel can evaluate it. -/
def scanZeroAux (buf : List Nat) : Nat → Nat → Option Nat
  | 0, _ => none
  | fuel + 1, i => if buf.getD i 1 = 0 then some i else scanZeroAux buf fuel (i + 1)

/-- First index in `[start, e)` holding a zero byte. -/
def scanZero (buf : List Nat) (start e : Nat) : Option Nat :=
  scanZeroAux buf (e - start) start

/-- Result of `read_until_zero_byte`: the field's bytes plus the cursor
position past the terminator, `noZero` for `Err(Error::NoZeroByte)`, or a
panic (empty slice makes `len() - 1` underflow / the index run out). -/
inductive ZRes
  | okZ (field : List Nat) (pos : Nat)
  | noZero
  | panickedZ
deriving DecidableEq

/-- Model of `read_until_zero_byte` (src/packet.rs lines 263-276).  Faithful detail:
the scan runs over `start..(buf.len() - 1)`, so a zero byte sitting at the
very last position of the slice is never found. -/
def read_until_zero_byte (buf : List Nat) (start : Nat) : ZRes :=
  if buf.length = 0 then ZRes.panickedZ
  else
    match scanZero buf start (buf.length - 1) with
    | some i => ZRes.okZ ((buf.drop start).take (i - start)) (i + 1)
    | none => ZRes.noZero

/-- Whether a byte is a UTF-8 continuation byte (0x80..0xBF). -/
def utf8Cont (c : Nat) : Bool := decide (0x80 ≤ c ∧ c ≤ 0xBF)

/-- UTF-8 validity of a byte list, as checked by `std::str::from_utf8`
(rejecting overlong forms, surrogates, and values above U+10FFFF). -/
def utf8Valid : List Nat → Bool
  | [] => true
  | b :: bs =>
    if b < 0x80 then utf8Valid bs
    else if 0xC2 ≤ b ∧ b ≤ 0xDF then
      match bs with
      | c1 :: bs1 => utf8Cont c1 && utf8Valid bs1
      | [] => false
    else if b = 0xE0 then
      match bs with
      | c1 :: c2 :: bs2 => decide (0xA0 ≤ c1 ∧ c1 ≤ 0xBF) && utf8Cont c2 && utf8Valid bs2
      | _ => false
    else if (0xE1 ≤ b ∧ b ≤ 0xEC) ∨ b = 0xEE ∨ b = 0xEF then
      match bs with
      | c1 :: c2 :: bs2 => utf8Cont c1 && utf8Cont c2 && utf8Valid bs2
      | _ => false
    else if b = 0xED then
      match bs with
      | c1 :: c2 :: bs2 => decide (0x80 ≤ c1 ∧ c1 ≤ 0x9F) && utf8Cont c2 && utf8Valid bs2
      | _ => false
    else if b = 0xF0 then
      match bs with
      | c1 :: c2 :: c3 :: bs3 =>
          decide (0x90 ≤ c1 ∧ c1 ≤ 0xBF) && utf8Cont c2 && utf8Cont c3 && utf8Valid bs3
      | _ => false
    else if 0xF1 ≤ b ∧ b ≤ 0xF3 then
      match bs with
      | c1 :: c2 :: c3 :: bs3 => utf8Cont c1 && utf8Cont c2 && utf8Cont c3 && utf8Valid bs3
      | _ => false
    else if b = 0xF4 then
      match bs with
      | c1 :: c2 :: c3 :: bs3 =>
          decide (0x80 ≤ c1 ∧ c1 ≤ 0x8F) && utf8Cont c2 && utf8Cont c3 && utf8Valid bs3
      | _ => false
    else false

/-- ASCII lowercase, applied bytewise.  The source calls Rust's Unicode
`str::to_lowercase` and then compares against the pure-ASCII words below; on
those comparisons bytewise ASCII lowering is extensionally the same check (no
other code point lowercases into these ASCII letters). -/
def lowerAscii (bs : List Nat) : List Nat :=
  bs.map fun b => if 65 ≤ b ∧ b ≤ 90 then b + 32 else b

/-- The UTF-8 bytes of "netascii". -/
def strNetascii : List Nat := [110, 101, 116, 97, 115, 99, 105, 105]

/-- The UTF-8 bytes of "octet". -/
def strOctet : List Nat := [111, 99, 116, 101, 116]

/-- The UTF-8 bytes of "mail". -/
def strMail : List Nat := [109, 97, 105, 108]

/-- Model of `impl From<&str> for Mode` (src/packet.rs lines 33-42).  `none` models the
catch-all arm, which terminates the process instead of returning an error. -/
def Mode.fromStr (s : List Nat) : Option Mode :=
  if lowerAscii s = strNetascii then some Mode.NetAscii
  else if lowerAscii s = strOctet then some Mode.Octet
  else if lowerAscii s = strMail then some Mode.Mail
  else none

/-- Outcome of `Packet::deserialize`: a packet, a returned codec error, or a
process panic (out-of-bounds index, utf8 unwrap, unknown mode text). -/
inductive DOut
  | ok (p : Packet)
  | err (e : PacketError)
  | panicked
deriving DecidableEq

/-- Model of `parse_rwrq` (src/packet.rs lines 215-230): cursor over `bytes[2..]`, a
zero-terminated filename then a zero-terminated mode word.  Both
`from_utf8(..).unwrap()` calls and the `Mode::from` catch-all panic. -/
def parse_rwrq (bytes : List Nat) (op_code : Nat) : DOut :=
  match read_until_zero_byte (bytes.drop 2) 0 with
  | ZRes.panickedZ => DOut.panicked
  | ZRes.noZero => DOut.err PacketError.NoZeroByte
  | ZRes.okZ file pos =>
    if utf8Valid file then
      match read_until_zero_byte (bytes.drop 2) pos with
      | ZRes.panickedZ => DOut.panicked
      | ZRes.noZero => DOut.err PacketError.NoZeroByte
      | ZRes.okZ modeBytes _ =>
        if utf8Valid modeBytes then
          match Mode.fromStr modeBytes with
          | some m => DOut.ok (Packet.Request op_code file m)
          | none => DOut.panicked
        else DOut.panicked
    else DOut.panicked

/-- Model of `parse_data` (src/packet.rs lines 232-241): big-endian block from
`bytes[2..4]` (indexing panics when fewer than 4 bytes are present), then a
single `read` into a zeroed 512-byte buffer, so `len = min 512 (length - 4)`
and the buffer keeps its zero padding past `len`. -/
def parse_data (bytes : List Nat) : DOut :=
  if bytes.length < 4 then DOut.panicked
  else
    let block := 256 * bytes.getD 2 0 + bytes.getD 3 0
    let chunk := (bytes.drop 4).take 512
    let data := chunk ++ List.replicate (512 - chunk.length) 0
    DOut.ok (Packet.Data block data chunk.length)

/-- Model of `parse_ack` (src/packet.rs lines 243-247). -/
def parse_ack (bytes : List Nat) : DOut :=
  if bytes.length < 4 then DOut.panicked
  else DOut.ok (Packet.Ack (256 * bytes.getD 2 0 + bytes.getD 3 0))

/-- Model of `parse_error` (src/packet.rs lines 249-261): the code field is read
little-endian, then a zero-terminated message from `bytes[4..]`. -/
def parse_error (bytes : List Nat) : DOut :=
  if bytes.length < 4 then DOut.panicked
  else
    let code := bytes.getD 2 0 + 256 * bytes.getD 3 0
    match read_until_zero_byte (bytes.drop 4) 0 with
    | ZRes.panickedZ => DOut.panicked
    | ZRes.noZero => DOut.err PacketError.NoZeroByte
    | ZRes.okZ msg _ =>
      if utf8Valid msg then DOut.ok (Packet.Error code msg) else DOut.panicked

/-- Model of `Packet::deserialize` (src/packet.rs lines 114-127): big-endian opcode
from `bytes[0..2]` (indexing panics on a buffer shorter than 2), then the
per-opcode parser; any other opcode is `Err(Error::InvalidOpcode)`.  The
literal patterns 1..5 are the opcode constants of the source match. -/
def Packet.deserialize (bytes : List Nat) : DOut :=
  if bytes.length < 2 then DOut.panicked
  else
    match 256 * bytes.getD 0 0 + bytes.getD 1 0 with
    | 1 => parse_rwrq bytes READ_OPCODE
    | 2 => parse_rwrq bytes WRITE_OPCODE
    | 3 => parse_data bytes
    | 4 => parse_ack bytes
    | 5 => parse_error bytes
    | _ => DOut.err PacketError.InvalidOpcode

/-! ## Dispatcher — src/main.rs `main` (lines 13-77) -/

/-- The dispatcher's decode of one received datagram (src/main.rs lines
18-22): `recv_from` copies the datagram over the front of the fixed
`[0; 1024]` buffer, the reported datagram length is discarded (`let (_,
addr) = ..`), and the whole 1024-byte buffer — datagram bytes followed by
whatever bytes were already there — is handed to `Packet::deserialize`. -/
def dispatchDecode (datagram stale : List Nat) : DOut :=
  Packet.deserialize (datagram ++ stale.drop datagram.length)

/-- Observable dispatcher state: the `connections: HashMap<SocketAddr,
Sender<Packet>>` registry (peer address and channel id, both as `Nat`), a
fresh-channel counter, the spawned workers `(op_code, addr, channel)`, the
error replies sent on the socket, and the frames forwarded into session
channels. -/
structure DispatchState where
  connections : List (Nat × Nat)
  nextChan : Nat
  spawned : List (Nat × Nat × Nat)
  outbox : List (Packet × Nat)
  forwarded : List (Nat × Packet)
deriving DecidableEq

/-- Model of `HashMap::insert`: replace the binding for `addr` if present, else add
it. -/
def insertConn (conns : List (Nat × Nat)) (addr ch : Nat) : List (Nat × Nat) :=
  match conns with
  | [] => [(addr, ch)]
  | (a, c) :: rest =>
      if a = addr then (addr, ch) :: rest else (a, c) :: insertConn rest addr ch

/-- Model of `HashMap::get`. -/
def lookupConn (conns : List (Nat × Nat)) (addr : Nat) : Option Nat :=
  match conns with
  | [] => none
  | (a, c) :: rest => if a = addr then some c else lookupConn rest addr

/-- One iteration of the dispatcher's match on a decoded frame (src/main.rs
lines 35-75).  A Request unconditionally creates a channel, inserts it into
the registry (replacing any existing binding for `addr`) and spawns a read or
write worker; a Request opcode outside {1, 2} hits the explicit process-
terminating arm (`none`).  Any other frame is forwarded to the registered
channel for `addr`, or answered with `Error{code=UNKNOWN_TID}`. -/
def handleFrame (st : DispatchState) (p : Packet) (addr : Nat) : Option DispatchState :=
  match p with
  | .Request op_code _file _mode =>
      let ch := st.nextChan
      let conns := insertConn st.connections addr ch
      if op_code = READ_OPCODE then
        some { st with connections := conns, nextChan := ch + 1,
                       spawned := st.spawned ++ [(op_code, addr, ch)] }
      else if op_code = WRITE_OPCODE then
        some { st with connections := conns, nextChan := ch + 1,
                       spawned := st.spawned ++ [(op_code, addr, ch)] }
      else none
  | q =>
      match lookupConn st.connections addr with
      | some ch => some { st with forwarded := st.forwarded ++ [(ch, q)] }
      | none => some { st with outbox := st.outbox ++ [(Packet.Error UNKNOWN_TID [], addr)] }

/-! ## Read transfer worker — src/main.rs `read_process` (lines 86-154)

The model covers the successful-open path: the file's bytes are given as
`content`.  The decisive source detail is that `cursor.get_ref().seek(
SeekFrom::End(0))` moves the underlying OS file offset to the end of the
file before the loop, and every later `cursor.get_ref().read(..)` reads at
that OS offset (the `Cursor` position set by `set_position` is never used
for reading), so the modelled file handle starts at `pos = content.length`.
The inbound channel is modelled as a finite script of frames; an exhausted
script means the worker blocks forever on `rx.recv()`. -/

/-- A file handle: contents plus the OS-level read offset. -/
structure RFile where
  content : List Nat
  pos : Nat
deriving DecidableEq

/-- Model of `read(&mut data)` on the handle: up to `n` bytes from the current
offset. -/
def fileRead (f : RFile) (n : Nat) : List Nat × RFile :=
  let chunk := (f.content.drop f.pos).take n
  (chunk, ⟨f.content, f.pos + chunk.length⟩)

/-- Result of the inner `'recv` loop: an Ack for the current block arrived
(with the rest of the inbound script), an Error frame arrived (`break
'transfer`), the script ran out (the worker blocks), or a Request frame
arrived (the source's `unreachable!()` arm). -/
inductive RecvStep
  | acked (rest : List Packet)
  | gotError
  | blockedRecv
  | panickedRecv
deriving DecidableEq

/-- The `'recv` wait loop of `read_process` (src/main.rs lines 122-147):
inbound Data frames and non-matching Acks are consumed and ignored, a
matching Ack breaks out, an Error frame aborts the transfer. -/
def awaitAck (current : Nat) : List Packet → RecvStep
  | [] => RecvStep.blockedRecv
  | .Data _ _ _ :: rest => awaitAck current rest
  | .Ack b :: rest => if b = current then RecvStep.acked rest else awaitAck current rest
  | .Error _ _ :: _ => RecvStep.gotError
  | .Request _ _ _ :: _ => RecvStep.panickedRecv

/-- How a modelled read transfer ended.  `fuelOut` only marks that the given
iteration bound was reached. -/
inductive ROutcome
  | doneR
  | abortedR
  | blockedR
  | panickedR
  | fuelOut
deriving DecidableEq

/-- Outcome of a read transfer together with every Data frame it sent. -/
structure RResult where
  outcome : ROutcome
  sent : List Packet
deriving DecidableEq

/-- The `'transfer` loop of `read_process` (src/main.rs lines 112-151).
Per iteration: read up to 512 bytes into the persistent `data` buffer
(bytes past the read length keep their previous contents), send
`Data{block, data, len}`, wait for the matching Ack, then `start += len`.
The `cursor.set_position(len)` of the source only moves the unused Cursor
position and has no observable effect. -/
def readLoop : Nat → RFile → List Nat → Nat → Nat → Nat → List Packet → List Packet → RResult
  | 0, _, _, _, _, _, _, sent => ⟨ROutcome.fuelOut, sent⟩
  | fuel + 1, f, data, start, endPos, block, inbox, sent =>
    if start < endPos then
      let chunk := (fileRead f 512).1
      let f2 := (fileRead f 512).2
      let len := chunk.length
      let data2 := chunk ++ data.drop len
      let sent2 := sent ++ [Packet.Data block data2 len]
      match awaitAck block inbox with
      | RecvStep.acked rest => readLoop fuel f2 data2 (start + len) endPos (block + 1) rest sent2
      | RecvStep.gotError => ⟨ROutcome.abortedR, sent2⟩
      | RecvStep.blockedRecv => ⟨ROutcome.blockedR, sent2⟩
      | RecvStep.panickedRecv => ⟨ROutcome.panickedR, sent2⟩
    else ⟨ROutcome.doneR, sent⟩

/-- Model of `read_process` on an opened file (src/main.rs lines 105-153):
`start = cursor.position() = 0`, `endPos` = the file size returned by the
seek to the end — which also leaves the OS offset at the end — a zeroed
512-byte buffer, and `current_block = 1`. -/
def read_process (content : List Nat) (inbox : List Packet) (fuel : Nat) : RResult :=
  readLoop fuel ⟨content, content.length⟩ (List.replicate 512 0) 0 content.length 1 inbox []

/-! ## Write transfer worker — src/main.rs `write_process` (lines 163-225)

The model covers the successful-create path.  `fileBytes` is what reaches
the file through the `BufWriter`. -/

/-- How a modelled write transfer ended. -/
inductive WOutcome
  | doneW
  | abortedW
  | blockedW
  | panickedW
deriving DecidableEq

/-- Outcome of a write transfer, the bytes written to the file, and the
frames sent to the peer. -/
structure WResult where
  outcome : WOutcome
  fileBytes : List Nat
  sent : List Packet
deriving DecidableEq

/-- The `'recv` loop of `write_process` (src/main.rs lines 193-222).  On a
Data frame for the expected block the source does `writer.write_all(&data)`
— the whole 512-byte array, not the first `len` bytes — then sends
`Ack{current_block}`, increments the block, and stops when `len < 512`.
Non-matching Data frames and Ack frames are ignored, an Error frame stops
the transfer, a Request frame hits `unreachable!()`. -/
def writeLoop (currentBlock : Nat) (fileBytes : List Nat) (sent : List Packet) :
    List Packet → WResult
  | [] => ⟨WOutcome.blockedW, fileBytes, sent⟩
  | .Data block data len :: rest =>
      if block ≠ currentBlock then writeLoop currentBlock fileBytes sent rest
      else
        let fileBytes2 := fileBytes ++ data
        let sent2 := sent ++ [Packet.Ack currentBlock]
        if len < 512 then ⟨WOutcome.doneW, fileBytes2, sent2⟩
        else writeLoop (currentBlock + 1) fileBytes2 sent2 rest
  | .Ack _ :: rest => writeLoop currentBlock fileBytes sent rest
  | .Error _ _ :: _ => ⟨WOutcome.abortedW, fileBytes, sent⟩
  | .Request _ _ _ :: _ => ⟨WOutcome.panickedW, fileBytes, sent⟩

/-- Model of `write_process` on a successfully created file (src/main.rs lines
184-224): send `Ack{block=0}`, set `current_block = 1`, then run the
receive loop over the inbound script. -/
def write_process (inbox : List Packet) : WResult :=
  writeLoop 1 [] [Packet.Ack 0] inbox

/-! ## Concrete inputs used by the claim theorems -/

/-- A zeroed 512-byte buffer. -/
def zeros512 : List Nat := List.replicate 512 0

/-- A Data frame with block 1 and length 0 (a zero-length final block). -/
def dataLen0 : Packet := Packet.Data 1 zeros512 0

/-- A 600-byte file (each byte 0xAA). -/
def file600 : List Nat := List.replicate 600 170

/-- A 512-byte Data buffer whose first 300 bytes are the payload (0x41) and
whose trailing 212 bytes are stale buffer contents (0x5A). -/
def c4payload : List Nat := List.replicate 300 65 ++ List.replicate 212 90

/-- A dispatcher state with one active session: peer address 7 is registered
with channel 0 and a read worker for it has been spawned. -/
def c8start : DispatchState := ⟨[(7, 0)], 1, [(READ_OPCODE, 7, 0)], [], []⟩

/-! ## Helper lemmas -/

theorem parse_rwrq_not_data (bytes : List Nat) (op b : Nat) (data : List Nat) (len : Nat) :
    parse_rwrq bytes op ≠ DOut.ok (Packet.Data b data len) := by
  intro h
  unfold parse_rwrq at h
  repeat' split at h
  all_goals simp_all

theorem parse_ack_not_data (bytes : List Nat) (b : Nat) (data : List Nat) (len : Nat) :
    parse_ack bytes ≠ DOut.ok (Packet.Data b data len) := by
  intro h
  unfold parse_ack at h
  repeat' split at h
  all_goals simp_all

theorem parse_error_not_data (bytes : List Nat) (b : Nat) (data : List Nat) (len : Nat) :
    parse_error bytes ≠ DOut.ok (Packet.Data b data len) := by
  intro h
  unfold parse_error at h
  repeat' split at h
  all_goals simp_all

theorem parse_data_len (bytes : List Nat) (b : Nat) (data : List Nat) (len : Nat)
    (h : parse_data bytes = DOut.ok (Packet.Data b data len)) :
    len = min 512 (bytes.length - 4) := by
  unfold parse_data at h
  split at h
  · exact absurd h (by simp)
  · simp only [DOut.ok.injEq, Packet.Data.injEq] at h
    obtain ⟨-, -, h3⟩ := h
    rw [← h3]
    simp [List.length_take, List.length_drop]

/-! ## Claim theorems -/

/-- Claim C1 (code bug): the spec requires Encode of a Data frame to emit
exactly 4 + n bytes, truncating the payload to the length field n.  At the
failing input Data with block 1 and length 0, the source encoder appends the
whole fixed 512-byte buffer after the 4-byte header, producing 516 bytes
instead of 4: the 512 bytes beyond the length are all emitted. -/
theorem C1_data_serialize_emits_full_buffer :
    Packet.serialize (Packet.Data 1 (List.replicate 512 99) 0) =
      some ([0, 3, 0, 1] ++ List.replicate 512 99)
    ∧ ([0, 3, 0, 1] ++ List.replicate 512 99).length = 516 := by
  decide

/-- Claim C2 (code bug): the spec requires Decode(Encode(f)) = f for every
well-formed frame, in particular a Data frame with length 0.  At that frame
the source encodes 516 bytes (full buffer) and decoding them yields a Data
frame with length 512, not the original length-0 frame. -/
theorem C2_roundtrip_fails_at_len0 :
    Packet.serialize dataLen0 = some ([0, 3, 0, 1] ++ zeros512)
    ∧ Packet.deserialize ([0, 3, 0, 1] ++ zeros512) = DOut.ok (Packet.Data 1 zeros512 512)
    ∧ Packet.deserialize ([0, 3, 0, 1] ++ zeros512) ≠ DOut.ok dataLen0 := by
  decide

/-- Claim C3 (code bug): for a 600-byte file the spec's scenario is
Data(block 1, length 512), then after Ack 1 Data(block 2, length 88), then
after Ack 2 termination.  The source seeks the OS file offset to the end of
the file while computing the size, so every read returns 0 bytes: the worker
sends Data(1, length 0), Data(2, length 0), Data(3, length 0) carrying none
of the file's bytes and then blocks forever instead of terminating. -/
theorem C3_read_process_600_sends_no_file_bytes :
    read_process file600 [Packet.Ack 1, Packet.Ack 2] 4 =
      ⟨ROutcome.blockedR,
       [Packet.Data 1 zeros512 0, Packet.Data 2 zeros512 0, Packet.Data 3 zeros512 0]⟩ := by
  decide

/-- Claim C4 (code bug): the spec requires the write worker to append exactly
length bytes of a matching Data frame.  For a single Data frame with block 1
and length 300 the source writes the whole 512-byte array — the 300 payload
bytes followed by 212 stale buffer bytes — though it does ack block 1 and
terminate as specified. -/
theorem C4_write_process_writes_full_buffer :
    write_process [Packet.Data 1 c4payload 300] =
      ⟨WOutcome.doneW, c4payload, [Packet.Ack 0, Packet.Ack 1]⟩
    ∧ c4payload.length = 512
    ∧ c4payload ≠ List.replicate 300 65 := by
  decide

/-- Claim C5 (code bug): the spec requires a read transfer of a file whose
size is a multiple of 512 — including an empty file — to send at least one
Data frame, the last one of length 0.  For the empty file the source's
transfer loop (while start < end) never runs: the worker completes having
sent no Data frame at all. -/
theorem C5_read_process_empty_file_sends_nothing :
    read_process [] [] 3 = ⟨ROutcome.doneR, []⟩ := by
  decide

/-- Claim C6 (code bug): the claim says a zero byte at any position of the
buffer, including its last byte, terminates a string field, and that an
unrecognized mode is a returned decode failure.  The source scans only up to
index length - 2, so the Error frame 00 05 07 00 00 — whose message
terminator is the buffer's last byte — is rejected with NoZeroByte; and the
Request 00 01 61 00 78 00 00 with mode text x reaches the process-terminating
arm of Mode's conversion instead of returning an error. -/
theorem C6_decode_misses_last_byte_zero_and_mode_panics :
    Packet.deserialize [0, 5, 7, 0, 0] = DOut.err PacketError.NoZeroByte
    ∧ Packet.deserialize [0, 1, 97, 0, 120, 0, 0] = DOut.panicked := by
  decide

/-- Claim C7 (code bug): the claim says Decode is total over arbitrary
buffers of any length and content.  The source indexes bytes 0 and 1
unconditionally, so the empty buffer makes it panic, and it unwraps the UTF-8
conversion of the filename, so the read request 00 01 FF 00 6F 63 74 65 74 00
00 with non-UTF-8 filename 0xFF also makes it panic. -/
theorem C7_decode_panics_on_short_and_non_utf8_input :
    Packet.deserialize [] = DOut.panicked
    ∧ Packet.deserialize [0, 1, 255, 0, 111, 99, 116, 101, 116, 0, 0] = DOut.panicked := by
  decide

/-- Claim C8 (code bug): the spec requires a Request from an address that
already has a session to be ignored.  The source inserts a fresh channel
unconditionally and spawns another worker: from a state where address 7 is
registered with channel 0, a second read Request from address 7 replaces the
registry entry with channel 1 and spawns a second read worker. -/
theorem C8_duplicate_request_spawns_second_worker :
    handleFrame c8start (Packet.Request READ_OPCODE [104, 105] Mode.Octet) 7 =
      some ⟨[(7, 1)], 2, [(READ_OPCODE, 7, 0), (READ_OPCODE, 7, 1)], [], []⟩ := by
  decide

/-- Claim C9 (confirmed): the encoder writes the Error frame's code field
little-endian (low byte first) for every code and message, the decoder reads
the code field little-endian for every pair of code bytes, and encoding an
Error with code 5 yields the bytes 05 00 for the code field. -/
theorem C9_error_code_is_little_endian :
    (∀ code msg, Packet.serialize (Packet.Error code msg) =
        some (0 :: 5 :: code % 256 :: code / 256 % 256 :: (msg ++ [0])))
    ∧ (∀ lo hi, Packet.deserialize [0, 5, lo, hi, 0, 0] =
        DOut.ok (Packet.Error (lo + 256 * hi) []))
    ∧ Packet.serialize (Packet.Error 5 [101, 114, 114]) =
        some [0, 5, 5, 0, 101, 114, 114, 0] :=
  ⟨fun _ _ => rfl, fun _ _ => rfl, rfl⟩

/-- Claim C10 (confirmed): the dispatcher hands its whole 1024-byte receive
buffer to the decoder regardless of the datagram's length, so every frame it
decodes as Data has length exactly 512 — a write worker can never observe an
inbound Data frame with length below 512 through the dispatcher. -/
theorem C10_dispatcher_data_always_512 (d s : List Nat) (b : Nat) (data : List Nat)
    (len : Nat) (hd : d.length ≤ 1024) (hs : s.length = 1024)
    (h : dispatchDecode d s = DOut.ok (Packet.Data b data len)) : len = 512 := by
  have hbuf : (d ++ s.drop d.length).length = 1024 := by
    simp only [List.length_append, List.length_drop]
    omega
  unfold dispatchDecode Packet.deserialize at h
  split at h
  · exact absurd h (by simp)
  · split at h
    · exact absurd h (parse_rwrq_not_data _ _ _ _ _)
    · exact absurd h (parse_rwrq_not_data _ _ _ _ _)
    · have hlen := parse_data_len _ _ _ _ h
      rw [hbuf] at hlen
      omega
    · exact absurd h (parse_ack_not_data _ _ _ _)
    · exact absurd h (parse_error_not_data _ _ _ _)
    · exact absurd h (by simp)

/-- Witness for claim C10: a 4-byte Data datagram for block 7 over a stale
buffer of 0x09 bytes decodes through the dispatcher to a Data frame whose
length is 512. -/
theorem C10_dispatcher_data_always_512_witness : (512 : Nat) = 512 :=
  C10_dispatcher_data_always_512 [0, 3, 0, 7] (List.replicate 1024 9) 7
    (List.replicate 512 9) 512 (by decide) (by simp) (by decide)
